import Mathlib

/-
  Verification development for the Cats-Cats-Cats 3D platformer.

  The repository contains two game-engine variants in src/services/ThreeGame.ts:
  variant A (the toon-shaded city engine, lines 1-966 of the concatenated file)
  and variant B (the per-axis box-collision engine, lines 968-1775).

  This file gives a shallow embedding of the simulation core of both variants
  over exact rational arithmetic.  Floating-point library kernels
  (square root, sine, cosine, atan2, exponential) are abstracted as function
  parameters collected in a NumKernel record; every theorem quantifies over
  them, so each result holds for every possible kernel implementation.
  Visual-only effects (mesh rotation, animation phase strings, sounds) and the
  renderer are outside the modeled state and are noted at each definition.
-/

structure Vec3 where
  x : ℚ
  y : ℚ
  z : ℚ
deriving DecidableEq, Repr

namespace Vec3

def add (a b : Vec3) : Vec3 := ⟨a.x + b.x, a.y + b.y, a.z + b.z⟩

def sub (a b : Vec3) : Vec3 := ⟨a.x - b.x, a.y - b.y, a.z - b.z⟩

def scale (q : ℚ) (a : Vec3) : Vec3 := ⟨q * a.x, q * a.y, q * a.z⟩

def dot (a b : Vec3) : ℚ := a.x * b.x + a.y * b.y + a.z * b.z

def lengthSq (a : Vec3) : ℚ := a.dot a

def zero : Vec3 := ⟨0, 0, 0⟩

end Vec3

/-- An axis-aligned box, as THREE.Box3 (min and max corners). -/
structure Box3 where
  min : Vec3
  max : Vec3
deriving DecidableEq, Repr

namespace Box3

/-- THREE.Box3.containsPoint: inclusive bounds on all three axes. -/
def containsPoint (b : Box3) (p : Vec3) : Bool :=
  b.min.x ≤ p.x ∧ p.x ≤ b.max.x ∧ b.min.y ≤ p.y ∧ p.y ≤ b.max.y ∧
    b.min.z ≤ p.z ∧ p.z ≤ b.max.z

/-- THREE.Vector3.clamp with the box corners: componentwise clamp. -/
def clampVec (b : Box3) (p : Vec3) : Vec3 :=
  ⟨Max.max b.min.x (Min.min b.max.x p.x), Max.max b.min.y (Min.min b.max.y p.y),
    Max.max b.min.z (Min.min b.max.z p.z)⟩

end Box3

/-- Abstracted floating-point math kernels used by the engine code
(Math.sqrt via vector length and normalize, Math.sin, Math.cos, Math.atan2,
Math.exp via THREE.MathUtils.damp).  All theorems quantify over a kernel, so
they hold for every implementation of these functions. -/
structure NumKernel where
  sqrtFn : ℚ → ℚ
  sinFn : ℚ → ℚ
  cosFn : ℚ → ℚ
  atan2Fn : ℚ → ℚ → ℚ
  expFn : ℚ → ℚ

/-- THREE.MathUtils.damp x y lambda dt = lerp x y (1 - exp (-lambda * dt)). -/
def damp (k : NumKernel) (x y lam dt : ℚ) : ℚ :=
  x + (y - x) * (1 - k.expFn (-(lam * dt)))

/-- Per-frame input flags, as src/types PlayerControls. -/
structure PlayerControls where
  forward : Bool
  backward : Bool
  left : Bool
  right : Bool
  jump : Bool
  sprint : Bool
deriving DecidableEq, Repr

/- ===============================================================
   Variant B: the per-axis collision engine (second half of ThreeGame.ts).
   Constants from its header: WALK_SPEED 6, RUN_SPEED 10, JUMP_FORCE 12,
   WALL_JUMP_FORCE 10, GRAVITY -35, MAX_JUMPS 3, COYOTE_TIME 0.1,
   JUMP_BUFFER_TIME 0.1, MOUSE_SENSITIVITY 0.002, CAMERA_MIN_PHI 0.3.
   =============================================================== -/

namespace VB

/-- The physics-relevant mutable player state of variant B.  The visual-only
fields of the class (player rotation, animationState phase and time, sounds,
meshes) are not modeled; the particle pool is modeled separately below. -/
structure BState where
  posX : ℚ
  posY : ℚ
  posZ : ℚ
  velX : ℚ
  velY : ℚ
  velZ : ℚ
  jumpCount : ℕ
  onGround : Bool
  timeSinceGrounded : ℚ
  timeSinceJumpPressed : ℚ
  isTouchingWall : Bool
  wallNormalX : ℚ
  wallNormalZ : ℚ
  isRunning : Bool
deriving DecidableEq, Repr

/-- One frame's external inputs to the update: the frame delta, the control
snapshot and the previous frame's snapshot (for the jump edge detector), the
horizontal camera-forward direction (the result of camera.getWorldDirection
with y zeroed, supplied as data since the camera quaternion is not modeled),
and the collision oracle: for each axis, whether some collidable box
intersects the player box during that axis pass, and the intersection size on
that axis (the push-out distance). -/
structure BInput where
  dt : ℚ
  controls : PlayerControls
  prevControls : PlayerControls
  camForwardX : ℚ
  camForwardZ : ℚ
  hitX : Bool
  penX : ℚ
  hitZ : Bool
  penZ : ℚ
  hitY : Bool
  penY : ℚ

/-- updateTimers: both timers advance by dt; a rising edge of the jump key
resets the jump-buffer timer to 0. -/
def updateTimers (i : BInput) (s : BState) : BState :=
  let s1 := { s with timeSinceGrounded := s.timeSinceGrounded + i.dt,
                     timeSinceJumpPressed := s.timeSinceJumpPressed + i.dt }
  if i.controls.jump ∧ ¬ i.prevControls.jump then
    { s1 with timeSinceJumpPressed := 0 }
  else s1

/-- performJump: consume the buffered press, set vertical velocity to
JUMP_FORCE = 12, increment the jump count, leave the ground.  The animation
phase change and jump sound are visual/audio only and not modeled. -/
def performJump (s : BState) : BState :=
  { s with timeSinceJumpPressed := 1/10,
           velY := 12,
           jumpCount := s.jumpCount + 1,
           onGround := false }

/-- performWallJump: consume the buffered press, vertical velocity
JUMP_FORCE * 0.9, horizontal velocity along the stored wall normal scaled by
WALL_JUMP_FORCE = 10, and jump count reset to 1.  The onGround flag is not
touched by the source.  Sound and particle burst are not modeled here. -/
def performWallJump (s : BState) : BState :=
  { s with timeSinceJumpPressed := 1/10,
           velY := 12 * (9/10),
           velX := s.wallNormalX * 10,
           velZ := s.wallNormalZ * 10,
           jumpCount := 1 }

/-- The jump block of handlePlayerMovement: a buffered press
(timeSinceJumpPressed < JUMP_BUFFER_TIME) performs a jump when within the
coyote window (timeSinceGrounded < COYOTE_TIME) and jumpCount < MAX_JUMPS;
otherwise, if touching a wall, it performs a wall jump. -/
def handleJump (s : BState) : BState :=
  if s.timeSinceJumpPressed < 1/10 then
    if s.timeSinceGrounded < 1/10 ∧ s.jumpCount < 3 then
      performJump s
    else if s.isTouchingWall then
      performWallJump s
    else s
  else s

/-- The horizontal-velocity part of handlePlayerMovement while running:
derive the camera-relative move direction from the camera forward and the
input flags; with significant input, damp the horizontal velocity toward the
move target at walk or sprint speed (stiffer on the ground); otherwise damp
it toward zero.  Returns the new (velX, velZ) pair. -/
def dampedHorizontalVel (k : NumKernel) (i : BInput) (s : BState) : ℚ × ℚ :=
  let fLen := k.sqrtFn (i.camForwardX ^ 2 + i.camForwardZ ^ 2)
  let fX := i.camForwardX / fLen
  let fZ := i.camForwardZ / fLen
  let rX := -fZ
  let rZ := fX
  let forwardInput : ℚ :=
    (if i.controls.forward then 1 else 0) - (if i.controls.backward then 1 else 0)
  let rightInput : ℚ :=
    (if i.controls.right then 1 else 0) - (if i.controls.left then 1 else 0)
  let mdX := fX * forwardInput + rX * rightInput
  let mdZ := fZ * forwardInput + rZ * rightInput
  let speed : ℚ := if i.controls.sprint then 10 else 6
  if mdX ^ 2 + mdZ ^ 2 > 1/100 then
    let mLen := k.sqrtFn (mdX ^ 2 + mdZ ^ 2)
    let nX := mdX / mLen
    let nZ := mdZ / mLen
    (damp k s.velX (nX * speed) (if s.onGround then 8 else 4) i.dt,
     damp k s.velZ (nZ * speed) (if s.onGround then 8 else 4) i.dt)
  else
    (damp k s.velX 0 (if s.onGround then 10 else 2) i.dt,
     damp k s.velZ 0 (if s.onGround then 10 else 2) i.dt)

/-- handlePlayerMovement: when not running, damp horizontal velocity toward 0
and return; otherwise apply the camera-relative horizontal damping and then
run the jump block.  The player-mesh rotation and animationState.turnRate
updates are visual only and not modeled; the sprint and wall-slide particle
emissions are modeled in the particle section. -/
def handlePlayerMovement (k : NumKernel) (i : BInput) (s : BState) : BState :=
  if ¬ s.isRunning then
    { s with velX := damp k s.velX 0 8 i.dt, velZ := damp k s.velZ 0 8 i.dt }
  else
    handleJump { s with velX := (dampedHorizontalVel k i s).1,
                        velZ := (dampedHorizontalVel k i s).2 }

/-- The gravity step at the top of applyPhysicsAndCollisions: reduced gravity
(factor 0.2) while wall-sliding (touching a wall, falling, airborne),
full GRAVITY = -35 otherwise. -/
def gravityStep (dt : ℚ) (s : BState) : BState :=
  if s.isTouchingWall ∧ s.velY < 0 ∧ ¬ s.onGround then
    { s with velY := s.velY + (-35) * dt * (1/5) }
  else
    { s with velY := s.velY + (-35) * dt }

/-- checkCollisions for the x axis: on an intersection, push out along x
opposite to the velocity sign, record the wall normal, zero the x velocity and
set the wall flag; otherwise clear the wall flag.  The oracle bit hit stands
for the existence of an intersecting collidable box and pen for the
intersection size along x. -/
def checkCollisionsX (hit : Bool) (pen : ℚ) (s : BState) : BState :=
  if hit then
    let direction : ℚ := if s.velX > 0 then -1 else 1
    { s with posX := s.posX + pen * direction,
             wallNormalX := direction, wallNormalZ := 0,
             velX := 0, isTouchingWall := true }
  else { s with isTouchingWall := false }

/-- checkCollisions for the z axis (overwrites the wall flag set by the
x pass, as the source does). -/
def checkCollisionsZ (hit : Bool) (pen : ℚ) (s : BState) : BState :=
  if hit then
    let direction : ℚ := if s.velZ > 0 then -1 else 1
    { s with posZ := s.posZ + pen * direction,
             wallNormalX := 0, wallNormalZ := direction,
             velZ := 0, isTouchingWall := true }
  else { s with isTouchingWall := false }

/-- checkCollisions for the y axis: while falling, push up, zero the vertical
velocity and set the ground flag; while rising, push down and zero the
vertical velocity; the ground flag is the pass's result in every case.
The geometric sub-conditions on the boxes (player bottom below obstacle top
and symmetrically) are absorbed into the oracle bit. -/
def checkCollisionsY (hit : Bool) (pen : ℚ) (s : BState) : BState :=
  if hit then
    if s.velY < 0 then
      { s with posY := s.posY + pen, velY := 0, onGround := true }
    else if s.velY > 0 then
      { s with posY := s.posY - pen, velY := 0, onGround := false }
    else { s with onGround := false }
  else { s with onGround := false }

/-- The landing block at the end of applyPhysicsAndCollisions: whenever
grounded with non-positive vertical velocity, zero the vertical velocity,
reset the jump count and the grounded timer.  The inner wasOnGround test only
selects the landing animation phase, sound and particle burst, which are
outside the modeled state. -/
def landingBlock (s : BState) : BState :=
  if s.onGround then
    if s.velY ≤ 0 then
      { s with velY := 0, jumpCount := 0, timeSinceGrounded := 0 }
    else s
  else s

/-- The x-axis pass: advance the x position, then resolve x collisions. -/
def moveCollideX (i : BInput) (s : BState) : BState :=
  checkCollisionsX i.hitX i.penX { s with posX := s.posX + s.velX * i.dt }

/-- The z-axis pass: advance the z position, then resolve z collisions. -/
def moveCollideZ (i : BInput) (s : BState) : BState :=
  checkCollisionsZ i.hitZ i.penZ { s with posZ := s.posZ + s.velZ * i.dt }

/-- The y-axis pass: advance the y position, then resolve y collisions. -/
def moveCollideY (i : BInput) (s : BState) : BState :=
  checkCollisionsY i.hitY i.penY { s with posY := s.posY + s.velY * i.dt }

/-- applyPhysicsAndCollisions: gravity, then per-axis move and resolve in the
order x, z, y, then the landing block. -/
def applyPhysicsAndCollisions (i : BInput) (s : BState) : BState :=
  landingBlock (moveCollideY i (moveCollideZ i (moveCollideX i (gravityStep i.dt s))))

/-- The movement phase of one frame: updateTimers then handlePlayerMovement. -/
def movePhase (k : NumKernel) (i : BInput) (s : BState) : BState :=
  handlePlayerMovement k i (updateTimers i s)

/-- One frame of the variant-B update on the modeled state: timers, movement
and jump logic, then physics and collisions.  The remaining members of
update (collectibles, world, camera, animations, particles) are modeled
separately and do not read or write any field of BState. -/
def frameStep (k : NumKernel) (i : BInput) (s : BState) : BState :=
  applyPhysicsAndCollisions i (movePhase k i s)

/-- animate computes its frame delta as the clock delta clamped to 0.05 and
passes it directly to update; there is no fixed-step accumulator in
variant B. -/
def animateDt (rawDt : ℚ) : ℚ := min rawDt (1/20)

/- ---------------------------------------------------------------
   Particle subsystem of variant B: a pool of 100 pre-built meshes
   (createParticlePool) moved between the particlePool array and the
   activeParticles array.
   --------------------------------------------------------------- -/

/-- One active particle record, as the activeParticles entries plus the
fields of its mesh that the updates touch (position and scale). -/
structure Particle where
  lifetime : ℚ
  velX : ℚ
  velY : ℚ
  velZ : ℚ
  posX : ℚ
  posY : ℚ
  posZ : ℚ
  scale : ℚ
deriving DecidableEq, Repr

/-- The particle subsystem state: the number of idle meshes in particlePool
and the list of active particles.  Meshes carry no identity that the updates
depend on, so the idle pool is modeled by its cardinality. -/
structure PoolState where
  pool : ℕ
  active : List Particle
deriving DecidableEq, Repr

/-- createParticlePool: 100 meshes pushed into the idle pool, none active. -/
def initPool : PoolState := { pool := 100, active := [] }

/-- emitParticleBurst: for i < count, stop if the pool is exhausted, else pop
one mesh, place it at the given position at scale 1, give it the random
velocity rand i (the three THREE.MathUtils random draws) and lifetime
random * 0.8 + 0.2 where the draw is randLife i. -/
def emitParticleBurst (pos : Vec3) (randLife : ℕ → ℚ) (rand : ℕ → ℚ × ℚ × ℚ)
    (count : ℕ) (st : PoolState) : PoolState :=
  match count with
  | 0 => st
  | n + 1 =>
    if st.pool = 0 then st
    else
      let v := rand n
      let p : Particle :=
        { lifetime := randLife n * (4/5) + 1/5,
          velX := v.1, velY := v.2.1, velZ := v.2.2,
          posX := pos.x, posY := pos.y, posZ := pos.z, scale := 1 }
      emitParticleBurst pos randLife rand n { pool := st.pool - 1, active := p :: st.active }

/-- emitSprintParticle: no-op when the pool is empty or the random gate
(Math.random() > 0.5) fires; otherwise one mesh leaves the pool with
lifetime 0.5 and a velocity derived from the player velocity. -/
def emitSprintParticle (gate : Bool) (playerPos : Vec3) (playerVelX playerVelZ : ℚ)
    (randY : ℚ) (st : PoolState) : PoolState :=
  if st.pool = 0 ∨ gate then st
  else
    let p : Particle :=
      { lifetime := 1/2,
        velX := -playerVelX * (1/10), velY := randY, velZ := -playerVelZ * (1/10),
        posX := playerPos.x, posY := playerPos.y - (4/5) * (2/5), posZ := playerPos.z,
        scale := 1 }
    { pool := st.pool - 1, active := p :: st.active }

/-- emitWallSlideParticle: no-op when the pool is empty or the random gate
fires; otherwise one mesh leaves the pool with lifetime 0.4, spawned against
the wall. -/
def emitWallSlideParticle (gate : Bool) (playerPos : Vec3) (wallNX wallNZ : ℚ)
    (randY randH : ℚ) (st : PoolState) : PoolState :=
  if st.pool = 0 ∨ gate then st
  else
    let p : Particle :=
      { lifetime := 2/5,
        velX := 0, velY := randY, velZ := 0,
        posX := playerPos.x + wallNX * (-(3/10)),
        posY := playerPos.y + randH,
        posZ := playerPos.z + wallNZ * (-(3/10)),
        scale := 1 }
    { pool := st.pool - 1, active := p :: st.active }

/-- One particle's per-frame update inside updateParticles: lifetime -= dt,
gravity bias on the velocity, position advanced by the (new) velocity, scale
shrunk by factor 0.95. -/
def tickParticle (dt : ℚ) (p : Particle) : Particle :=
  let vY := p.velY - 5 * dt
  { lifetime := p.lifetime - dt,
    velX := p.velX, velY := vY, velZ := p.velZ,
    posX := p.posX + p.velX * dt,
    posY := p.posY + vY * dt,
    posZ := p.posZ + p.velZ * dt,
    scale := p.scale * (19/20) }

/-- updateParticles: every active particle is ticked; those whose lifetime
has crossed zero are removed from the active list and their meshes returned
to the idle pool. -/
def updateParticles (dt : ℚ) (st : PoolState) : PoolState :=
  let ticked := st.active.map (tickParticle dt)
  { pool := st.pool + (ticked.filter (fun p => p.lifetime ≤ 0)).length,
    active := ticked.filter (fun p => ¬ p.lifetime ≤ 0) }

/-- The particle-subsystem events that can occur during execution, each
carrying the data the corresponding source call site supplies. -/
inductive PoolOp where
  | burst (pos : Vec3) (randLife : ℕ → ℚ) (rand : ℕ → ℚ × ℚ × ℚ) (count : ℕ)
  | sprint (gate : Bool) (playerPos : Vec3) (vX vZ : ℚ) (randY : ℚ)
  | wallSlide (gate : Bool) (playerPos : Vec3) (nX nZ : ℚ) (randY randH : ℚ)
  | tick (dt : ℚ)

/-- Apply one particle-subsystem event. -/
def applyPoolOp (st : PoolState) : PoolOp → PoolState
  | .burst pos randLife rand count => emitParticleBurst pos randLife rand count st
  | .sprint gate p vX vZ randY => emitSprintParticle gate p vX vZ randY st
  | .wallSlide gate p nX nZ randY randH => emitWallSlideParticle gate p nX nZ randY randH st
  | .tick dt => updateParticles dt st

/-- Run a sequence of particle-subsystem events from a state. -/
def runPoolOps (st : PoolState) : List PoolOp → PoolState
  | [] => st
  | op :: rest => runPoolOps (applyPoolOp st op) rest

/- ---------------------------------------------------------------
   Collectibles of variant B (checkCollectibleCollisions) and the
   mouse-look handler.
   --------------------------------------------------------------- -/

/-- A variant-B collectible group: only its world position matters to the
pickup check (the spinning fish mesh inside is visual). -/
structure CollectibleB where
  posX : ℚ
  posY : ℚ
  posZ : ℚ
deriving DecidableEq, Repr

/-- Score events fired through the onScoreUpdate callback. -/
inductive ScoreEvent where
  | scoreUpdate (score total : ℕ)
deriving DecidableEq, Repr

/-- Distance from the player position to a collectible, through the sqrt
kernel (THREE.Vector3.distanceTo). -/
def distToPlayer (k : NumKernel) (p : Vec3) (c : CollectibleB) : ℚ :=
  k.sqrtFn ((c.posX - p.x) ^ 2 + (c.posY - p.y) ^ 2 + (c.posZ - p.z) ^ 2)

/-- The body of checkCollectibleCollisions on the reversed collectible list
(the source iterates indices from the end): each collectible within pickup
distance 1.5 is removed from the scene and spliced out of the array, the
score is incremented and onScoreUpdate fires with the constant
TOTAL_COLLECTIBLES = 80.  Returns the surviving collectibles (still in
reversed order), the final score and the emitted events in order. -/
def collectRev (k : NumKernel) (p : Vec3) :
    List CollectibleB → ℕ → List CollectibleB × ℕ × List ScoreEvent
  | [], score => ([], score, [])
  | c :: rest, score =>
    if distToPlayer k p c < 3/2 then
      let out := collectRev k p rest (score + 1)
      (out.1, out.2.1, .scoreUpdate (score + 1) 80 :: out.2.2)
    else
      let out := collectRev k p rest score
      (c :: out.1, out.2.1, out.2.2)

/-- checkCollectibleCollisions: iterate the collectible array from its last
index down to 0, removing picked collectibles.  The sound and particle burst
per pickup are modeled in their own subsystems. -/
def checkCollectibleCollisions (k : NumKernel) (p : Vec3)
    (cs : List CollectibleB) (score : ℕ) : List CollectibleB × ℕ × List ScoreEvent :=
  let out := collectRev k p cs.reverse score
  (out.1.reverse, out.2.1, out.2.2)

/-- The variant-B camera spherical angles (theta = yaw, phi = pitch).
CAMERA_MAX_PHI is PI / 2.1 in the source; the irrational float constant is
abstracted as the maxPhi parameter. -/
def onMouseMove (maxPhi : ℚ) (movementX movementY : ℚ) (cam : ℚ × ℚ) : ℚ × ℚ :=
  let theta := cam.1 - movementX * (1/500)
  let phi := cam.2 - movementY * (1/500)
  (theta, Max.max (3/10) (Min.min maxPhi phi))

end VB

/- ===============================================================
   Variant A: the toon city engine (first half of ThreeGame.ts).
   CONFIG.PHYSICS: GRAVITY 110, MOVE_SPEED 50, SPRINT_SPEED 85,
   ACCEL 400, AIR_CONTROL 120, JUMP_FORCE 50, VAR_JUMP_TIME 0.25,
   FRICTION_GROUND 25, FRICTION_AIR 1, PLAYER_RADIUS 1.1,
   PLAYER_HEIGHT 2.2, STEP_HEIGHT 1.2, FIXED_STEP 1/60, SUBSTEPS 5.
   =============================================================== -/

namespace VA

/-- A variant-A collectible (simit): mesh position, active flag, mesh
visibility and the stored base height. -/
structure Simit where
  pos : Vec3
  active : Bool
  visible : Bool
  baseY : ℚ
deriving DecidableEq, Repr

/-- Callback events of variant A: onScoreUpdate and onLivesUpdate. -/
inductive EventA where
  | scoreUpdate (score total : ℕ)
  | livesUpdate (lives : ℤ)
deriving DecidableEq, Repr

/-- The mutable game state of variant A that the simulation core touches.
Renderer objects, the visual-interpolation rot, the squash scalar and the
dust-particle instanced mesh are visual only and not modeled; dust emission
has no effect on any modeled field. -/
structure AState where
  pPos : Vec3
  pVel : Vec3
  pOnGround : Bool
  pJumpTimer : ℚ
  pFacing : ℚ
  pPlatformVelocity : Vec3
  prevPos : Vec3
  lives : ℤ
  score : ℕ
  collectibles : List Simit
  running : Bool
  camX : ℚ
  camY : ℚ
  events : List EventA
deriving DecidableEq, Repr

/-- Step 1 of updatePhysicsFixed: build the raw input vector from the key
flags, and if nonzero, normalize it, rotate it into world space about the y
axis by the camera yaw, set the facing angle from atan2 and accelerate
(ACCEL 400 grounded, AIR_CONTROL 120 airborne). -/
def inputStep (k : NumKernel) (keys : PlayerControls) (dt : ℚ) (s : AState) : AState :=
  let ix : ℚ := (if keys.right then 1 else 0) - (if keys.left then 1 else 0)
  let iz : ℚ := (if keys.backward then 1 else 0) - (if keys.forward then 1 else 0)
  if ix ^ 2 + iz ^ 2 > 0 then
    let len := k.sqrtFn (ix ^ 2 + iz ^ 2)
    let nx := ix / len
    let nz := iz / len
    let c := k.cosFn s.camY
    let si := k.sinFn s.camY
    let wx := nx * c + nz * si
    let wz := -nx * si + nz * c
    let accel : ℚ := if s.pOnGround then 400 else 120
    { s with pFacing := k.atan2Fn wx wz,
             pVel := ⟨s.pVel.x + wx * accel * dt, s.pVel.y, s.pVel.z + wz * accel * dt⟩ }
  else s

/-- Step 2: friction, proportional to current horizontal speed and the
ground/air coefficient, never reversing direction (speed floored at 0). -/
def frictionStep (k : NumKernel) (dt : ℚ) (s : AState) : AState :=
  let friction : ℚ := if s.pOnGround then 25 else 1
  let currentSpeed := k.sqrtFn (s.pVel.x ^ 2 + s.pVel.z ^ 2)
  if currentSpeed > 0 then
    let drop := currentSpeed * friction * dt
    let newSpeed := Max.max 0 (currentSpeed - drop)
    if newSpeed ≠ currentSpeed then
      { s with pVel := ⟨s.pVel.x * (newSpeed / currentSpeed), s.pVel.y,
                        s.pVel.z * (newSpeed / currentSpeed)⟩ }
    else s
  else s

/-- Step 3: clamp horizontal speed to MOVE_SPEED 50 or SPRINT_SPEED 85. -/
def maxSpeedStep (k : NumKernel) (sprint : Bool) (s : AState) : AState :=
  let maxS : ℚ := if sprint then 85 else 50
  let len := k.sqrtFn (s.pVel.x ^ 2 + s.pVel.z ^ 2)
  if len > maxS then
    { s with pVel := ⟨s.pVel.x / len * maxS, s.pVel.y, s.pVel.z / len * maxS⟩ }
  else s

/-- Step 4: jump.  While the jump key is held: from the ground, vertical
velocity is set to JUMP_FORCE 50, the ground flag cleared and the
variable-jump timer armed (dust burst and squash are visual only); while the
timer runs, holding adds reduced upward acceleration.  Releasing the key
zeroes the timer. -/
def jumpStep (jumpKey : Bool) (dt : ℚ) (s : AState) : AState :=
  if jumpKey then
    if s.pOnGround then
      { s with pVel := ⟨s.pVel.x, 50, s.pVel.z⟩, pOnGround := false, pJumpTimer := 1/4 }
    else if s.pJumpTimer > 0 then
      { s with pVel := ⟨s.pVel.x, s.pVel.y + 110 * (3/5) * dt, s.pVel.z⟩,
               pJumpTimer := s.pJumpTimer - dt }
    else s
  else { s with pJumpTimer := 0 }

/-- Step 5: gravity, GRAVITY 110 downward. -/
def gravityStep (dt : ℚ) (s : AState) : AState :=
  { s with pVel := ⟨s.pVel.x, s.pVel.y - 110 * dt, s.pVel.z⟩ }

/-- Step 6: while grounded on a moving platform, the platform velocity is
added to the position. -/
def platformStep (dt : ℚ) (s : AState) : AState :=
  if s.pOnGround then
    { s with pPos := s.pPos.add (Vec3.scale dt s.pPlatformVelocity) }
  else s

/-- Math.sign. -/
def sign (q : ℚ) : ℚ := if q > 0 then 1 else if q < 0 then -1 else 0

/-- The collision sub-state threaded through resolveCollisions: position,
velocity and the groundHit accumulator. -/
structure Contact where
  pos : Vec3
  vel : Vec3
  ground : Bool
deriving DecidableEq, Repr

/-- One static collider test of resolveCollisions, for one box, given the
capsule foot-sphere center (computed once from the position at entry to
resolveCollisions, as the source does).  Broadphase skips far boxes.  On
overlap of the foot sphere (radius PLAYER_RADIUS 1.1, degenerate overlaps
below 1e-5 skipped): a near-horizontal contact normal with the box top within
STEP_HEIGHT 1.2 of the feet while not moving upward is resolved as a step-up
(snap to the box top, zero vertical velocity, ground); otherwise penetration
push-out along the normal and velocity slide.  The source mutates the THREE
vector norm in place: after pPos.add(norm.multiplyScalar(pen)) the vector
holds norm * pen, the slide dot product is taken against that, and after
pVel.sub(norm.multiplyScalar(vn)) it holds norm * pen * vn; the final
ground test norm.y greater than 0.7 reads the mutated vector.  The model
reproduces these aliased values exactly. -/
def resolveBoxContact (k : NumKernel) (center : Vec3) (st : Contact) (box : Box3) :
    Contact :=
  if |box.min.x - st.pos.x| > 30 then st
  else
    let closest := box.clampVec center
    let diff := center.sub closest
    let distSq := diff.lengthSq
    if distSq < (11/10) ^ 2 ∧ distSq > 1/100000 then
      let dist := k.sqrtFn distSq
      let pen := 11/10 - dist
      let norm := Vec3.scale (1 / dist) diff
      if norm.y < 1/10 ∧ box.max.y - st.pos.y ≤ 6/5 ∧ st.vel.y ≤ 0 then
        { pos := ⟨st.pos.x, box.max.y, st.pos.z⟩,
          vel := ⟨st.vel.x, 0, st.vel.z⟩,
          ground := true }
      else
        let normA := Vec3.scale pen norm
        let pos2 := st.pos.add normA
        let vn := st.vel.dot normA
        if vn < 0 then
          let normB := Vec3.scale vn normA
          let vel2 := st.vel.sub normB
          if normB.y > 7/10 then { pos := pos2, vel := ⟨vel2.x, 0, vel2.z⟩, ground := true }
          else { pos := pos2, vel := vel2, ground := st.ground }
        else
          if normA.y > 7/10 then { pos := pos2, vel := ⟨st.vel.x, 0, st.vel.z⟩, ground := true }
          else { pos := pos2, vel := st.vel, ground := st.ground }
    else st

/-- The tram (moving platform) test at the top of resolveCollisions: the tram
box expanded by 1 on x and z; standing on top while not rising snaps to the
top, zeroes vertical velocity, grounds, and records the tram's approximate
velocity as platform velocity; otherwise a small horizontal push away from
the tram center line. -/
def tramContact (k : NumKernel) (tramBox : Box3) (tElapsed : ℚ)
    (st : Contact × Vec3) : Contact × Vec3 :=
  let c := st.1
  let tb : Box3 := ⟨⟨tramBox.min.x - 1, tramBox.min.y, tramBox.min.z - 1⟩,
                    ⟨tramBox.max.x + 1, tramBox.max.y, tramBox.max.z + 1⟩⟩
  if tb.containsPoint c.pos then
    if c.pos.y ≥ tb.max.y - 1 ∧ c.vel.y ≤ 0 then
      ({ pos := ⟨c.pos.x, tb.max.y, c.pos.z⟩,
         vel := ⟨c.vel.x, 0, c.vel.z⟩,
         ground := true },
       ⟨0, 0, k.sinFn (tElapsed * (3/10)) * 50⟩)
    else
      let dx := c.pos.x - (tb.min.x + tb.max.x) / 2
      if |dx| > 0 then
        ({ c with pos := ⟨c.pos.x + sign dx * (1/10), c.pos.y, c.pos.z⟩ }, st.2)
      else st
  else st

/-- resolveCollisions: reset the ground accumulator and the platform
velocity, test the tram, fold the static colliders over the foot-sphere test
(the sphere center is computed once from the position at entry), then clamp
to the ground plane (y floored at 0, vertical velocity forced non-negative
there, grounded), and finally commit the ground flag. -/
def resolveCollisions (k : NumKernel) (colliders : List Box3) (tramBox : Box3)
    (tElapsed : ℚ) (s : AState) : AState :=
  let st0 : Contact × Vec3 := ({ pos := s.pPos, vel := s.pVel, ground := false }, Vec3.zero)
  let st1 := tramContact k tramBox tElapsed st0
  let center : Vec3 := ⟨st1.1.pos.x, st1.1.pos.y + 11/10, st1.1.pos.z⟩
  let st2 := colliders.foldl (resolveBoxContact k center) st1.1
  let st3 :=
    if st2.pos.y ≤ 0 then
      { pos := ⟨st2.pos.x, 0, st2.pos.z⟩,
        vel := ⟨st2.vel.x, Max.max 0 st2.vel.y, st2.vel.z⟩,
        ground := true }
    else st2
  { s with pPos := st3.pos, pVel := st3.vel, pOnGround := st3.ground,
           pPlatformVelocity := st1.2 }

/-- One integration sub-step: advance the position by the velocity over the
sub-step time, then resolve collisions. -/
def substep (k : NumKernel) (colliders : List Box3) (tramBox : Box3)
    (tElapsed : ℚ) (subDt : ℚ) (s : AState) : AState :=
  resolveCollisions k colliders tramBox tElapsed
    { s with pPos := s.pPos.add (Vec3.scale subDt s.pVel) }

/-- Step 7: record prevPos, then run SUBSTEPS = 5 sub-steps. -/
def integrate (k : NumKernel) (colliders : List Box3) (tramBox : Box3)
    (tElapsed : ℚ) (dt : ℚ) (s : AState) : AState :=
  let subDt := dt / 5
  let stepOnce := substep k colliders tramBox tElapsed subDt
  stepOnce (stepOnce (stepOnce (stepOnce (stepOnce { s with prevPos := s.pPos }))))

/-- respawn: one life lost, onLivesUpdate fired with the remaining lives,
player moved to the respawn point (0, 25, 0) with zero velocity. -/
def respawn (s : AState) : AState :=
  { s with lives := s.lives - 1,
           events := s.events ++ [.livesUpdate (s.lives - 1)],
           pPos := ⟨0, 25, 0⟩,
           pVel := Vec3.zero,
           prevPos := ⟨0, 25, 0⟩ }

/-- The floor check closing updatePhysicsFixed: falling below y = -10
triggers the respawn game event. -/
def floorCheck (s : AState) : AState :=
  if s.pPos.y < -10 then respawn s else s

/-- updatePhysicsFixed: input, friction, speed clamp, jump, gravity,
platform inheritance, sub-stepped integration with per-sub-step collision
resolution, and the floor check. -/
def updatePhysicsFixed (k : NumKernel) (keys : PlayerControls)
    (colliders : List Box3) (tramBox : Box3) (tElapsed : ℚ) (dt : ℚ)
    (s : AState) : AState :=
  floorCheck
    (integrate k colliders tramBox tElapsed dt
      (platformStep dt
        (gravityStep dt
          (jumpStep keys.jump dt
            (maxSpeedStep k keys.sprint
              (frictionStep k dt
                (inputStep k keys dt s)))))))

/-- The collectible scan inside updateEntities, over the collectible list in
order: inactive collectibles are skipped (their mesh rotation is visual);
an active collectible within horizontal distance 5 of the player (the player
position is compared with its y replaced by the collectible's) is
deactivated, hidden, the score incremented and onScoreUpdate fired with the
new score and the fixed list length.  The happy-face timer is visual only.
Returns the new list, the new score and the events in order. -/
def collectScan (k : NumKernel) (p : Vec3) :
    List Simit → ℕ → ℕ → List Simit × ℕ × List EventA
  | [], score, _ => ([], score, [])
  | c :: rest, score, total =>
    if c.active then
      if k.sqrtFn ((c.pos.x - p.x) ^ 2 + (c.pos.z - p.z) ^ 2) < 5 then
        let out := collectScan k p rest (score + 1) total
        ({ c with active := false, visible := false } :: out.1, out.2.1,
          .scoreUpdate (score + 1) total :: out.2.2)
      else
        let out := collectScan k p rest score total
        (c :: out.1, out.2.1, out.2.2)
    else
      let out := collectScan k p rest score total
      (c :: out.1, out.2.1, out.2.2)

/-- The collectible part of updateEntities applied to the game state (tram
mesh movement and blink logic are visual only). -/
def updateEntitiesCollect (k : NumKernel) (s : AState) : AState :=
  let out := collectScan k s.pPos s.collectibles s.score s.collectibles.length
  { s with collectibles := out.1, score := out.2.1, events := s.events ++ out.2.2 }

/-- reset: restore lives 9 and score 0, re-place the player at the spawn
point (0, 10, 0) with zero velocity and the ground flag cleared, re-activate
and re-show every collectible, and fire both callbacks. -/
def reset (s : AState) : AState :=
  { s with lives := 9,
           score := 0,
           pPos := ⟨0, 10, 0⟩,
           pVel := Vec3.zero,
           pOnGround := false,
           collectibles := s.collectibles.map (fun c => { c with active := true, visible := true }),
           events := s.events ++ [.scoreUpdate 0 s.collectibles.length, .livesUpdate 9] }

/-- setRunning: set the running flag; when starting, also perform a full
reset (the pointer-lock request is a browser effect outside the model). -/
def setRunning (r : Bool) (s : AState) : AState :=
  let s1 := { s with running := r }
  if r then reset s1 else s1

/-- The variant-A mouse handler: while running with the pointer locked, both
camera angles accumulate the scaled mouse deltas; neither is clamped. -/
def onMouseMove (running pointerLocked : Bool) (movementX movementY : ℚ)
    (cam : ℚ × ℚ) : ℚ × ℚ :=
  if running ∧ pointerLocked then
    (cam.1 - movementY * (1/500), cam.2 - movementX * (1/500))
  else cam

/-- The while loop of the variant-A frame callback: drain the time
accumulator in FIXED_STEP = 1/60 increments, recording the dt passed to
updatePhysicsFixed and updateEntities at each iteration. -/
def drainAcc (acc : ℚ) : List ℚ × ℚ :=
  if h : acc ≥ 1/60 then
    let out := drainAcc (acc - 1/60)
    ((1/60 : ℚ) :: out.1, out.2)
  else ([], acc)
termination_by (⌊acc * 60⌋).toNat
decreasing_by
  have h1 : (1 : ℤ) ≤ ⌊acc * 60⌋ := by
    rw [Int.le_floor]
    push_cast
    linarith
  have h2 : ⌊(acc - 1/60) * 60⌋ = ⌊acc * 60⌋ - 1 := by
    have : (acc - 1/60) * 60 = acc * 60 - 1 := by ring
    rw [this, Int.floor_sub_one]
  rw [h2]
  omega

/-- One invocation of the variant-A frame callback, on the physics clock:
the raw clock delta is clamped to 0.1, added to the accumulator, and the
while loop drains the accumulator in fixed steps; the list is the sequence
of dt values handed to the fixed update (rendering follows, outside the
model). -/
def loopFrame (rawDt acc : ℚ) : List ℚ × ℚ :=
  let dt := Min.min rawDt (1/10)
  drainAcc (acc + dt)

end VA

/-- A degenerate numeric kernel (all library calls return 0), used to
instantiate kernel-parametric theorems on concrete states. -/
def kZero : NumKernel :=
  { sqrtFn := fun _ => 0, sinFn := fun _ => 0, cosFn := fun _ => 0,
    atan2Fn := fun _ _ => 0, expFn := fun _ => 0 }

/- ===============================================================
   Theorems.
   =============================================================== -/

section Lemmas

theorem vb_updateTimers_onGround (i : VB.BInput) (s : VB.BState) :
    (VB.updateTimers i s).onGround = s.onGround := by
  unfold VB.updateTimers
  split <;> rfl

theorem vb_updateTimers_jumpCount (i : VB.BInput) (s : VB.BState) :
    (VB.updateTimers i s).jumpCount = s.jumpCount := by
  unfold VB.updateTimers
  split <;> rfl

theorem vb_handleJump_onGround (s : VB.BState) (h : s.onGround = false) :
    (VB.handleJump s).onGround = false := by
  unfold VB.handleJump VB.performJump VB.performWallJump
  split_ifs <;> simp_all

theorem vb_handleJump_jumpCount_ne (s : VB.BState) (h : s.jumpCount ≠ 0) :
    (VB.handleJump s).jumpCount ≠ 0 := by
  unfold VB.handleJump VB.performJump VB.performWallJump
  split_ifs <;> simp_all

theorem vb_handlePlayerMovement_onGround (k : NumKernel) (i : VB.BInput)
    (s : VB.BState) (h : s.onGround = false) :
    (VB.handlePlayerMovement k i s).onGround = false := by
  unfold VB.handlePlayerMovement
  by_cases hr : ¬ s.isRunning
  · rw [if_pos hr]; exact h
  · rw [if_neg hr]; exact vb_handleJump_onGround _ h

theorem vb_handlePlayerMovement_jumpCount_ne (k : NumKernel) (i : VB.BInput)
    (s : VB.BState) (h : s.jumpCount ≠ 0) :
    (VB.handlePlayerMovement k i s).jumpCount ≠ 0 := by
  unfold VB.handlePlayerMovement
  by_cases hr : ¬ s.isRunning
  · rw [if_pos hr]; exact h
  · rw [if_neg hr]; exact vb_handleJump_jumpCount_ne _ h

theorem vb_movePhase_onGround (k : NumKernel) (i : VB.BInput) (s : VB.BState)
    (h : s.onGround = false) : (VB.movePhase k i s).onGround = false := by
  unfold VB.movePhase
  exact vb_handlePlayerMovement_onGround _ _ _ (by rw [vb_updateTimers_onGround]; exact h)

theorem vb_movePhase_jumpCount_ne (k : NumKernel) (i : VB.BInput) (s : VB.BState)
    (h : s.jumpCount ≠ 0) : (VB.movePhase k i s).jumpCount ≠ 0 := by
  unfold VB.movePhase
  exact vb_handlePlayerMovement_jumpCount_ne _ _ _ (by rw [vb_updateTimers_jumpCount]; exact h)

theorem vb_checkCollisionsX_fields (hit : Bool) (pen : ℚ) (s : VB.BState) :
    (VB.checkCollisionsX hit pen s).velY = s.velY ∧
    (VB.checkCollisionsX hit pen s).jumpCount = s.jumpCount ∧
    (VB.checkCollisionsX hit pen s).onGround = s.onGround := by
  unfold VB.checkCollisionsX
  split_ifs <;> simp

theorem vb_checkCollisionsZ_fields (hit : Bool) (pen : ℚ) (s : VB.BState) :
    (VB.checkCollisionsZ hit pen s).velY = s.velY ∧
    (VB.checkCollisionsZ hit pen s).jumpCount = s.jumpCount ∧
    (VB.checkCollisionsZ hit pen s).onGround = s.onGround := by
  unfold VB.checkCollisionsZ
  split_ifs <;> simp

theorem vb_checkCollisionsY_jumpCount (hit : Bool) (pen : ℚ) (s : VB.BState) :
    (VB.checkCollisionsY hit pen s).jumpCount = s.jumpCount := by
  unfold VB.checkCollisionsY
  split_ifs <;> simp

theorem vb_checkCollisionsY_ground (hit : Bool) (pen : ℚ) (s : VB.BState)
    (h : (VB.checkCollisionsY hit pen s).onGround = true) :
    (VB.checkCollisionsY hit pen s).velY = 0 ∧ s.velY < 0 := by
  unfold VB.checkCollisionsY at h ⊢
  split_ifs at h ⊢
  simp_all

theorem vb_landingBlock_jumpCount_zero (s : VB.BState)
    (h : (VB.landingBlock s).jumpCount = 0) (hne : s.jumpCount ≠ 0) :
    s.onGround = true ∧ s.velY ≤ 0 := by
  unfold VB.landingBlock at h
  split_ifs at h <;> simp_all

theorem vb_landingBlock_onGround (s : VB.BState) :
    (VB.landingBlock s).onGround = s.onGround := by
  unfold VB.landingBlock
  split_ifs <;> simp

theorem vb_moveCollideX_fields (i : VB.BInput) (s : VB.BState) :
    (VB.moveCollideX i s).velY = s.velY ∧
    (VB.moveCollideX i s).jumpCount = s.jumpCount ∧
    (VB.moveCollideX i s).onGround = s.onGround := by
  unfold VB.moveCollideX
  exact vb_checkCollisionsX_fields _ _ _

theorem vb_moveCollideZ_fields (i : VB.BInput) (s : VB.BState) :
    (VB.moveCollideZ i s).velY = s.velY ∧
    (VB.moveCollideZ i s).jumpCount = s.jumpCount ∧
    (VB.moveCollideZ i s).onGround = s.onGround := by
  unfold VB.moveCollideZ
  exact vb_checkCollisionsZ_fields _ _ _

theorem vb_moveCollideY_jumpCount (i : VB.BInput) (s : VB.BState) :
    (VB.moveCollideY i s).jumpCount = s.jumpCount := by
  unfold VB.moveCollideY
  exact vb_checkCollisionsY_jumpCount _ _ _

theorem vb_moveCollideY_ground (i : VB.BInput) (s : VB.BState)
    (h : (VB.moveCollideY i s).onGround = true) :
    (VB.moveCollideY i s).velY = 0 ∧ s.velY < 0 := by
  unfold VB.moveCollideY at h ⊢
  exact vb_checkCollisionsY_ground _ _ _ h

theorem vb_gravityStep_fields (dt : ℚ) (s : VB.BState) :
    (VB.gravityStep dt s).jumpCount = s.jumpCount ∧
    (VB.gravityStep dt s).onGround = s.onGround := by
  unfold VB.gravityStep
  split_ifs <;> simp

theorem vb_landingBlock_of_ground (s : VB.BState) (hg : s.onGround = true)
    (hv : s.velY = 0) :
    (VB.landingBlock s).jumpCount = 0 ∧ (VB.landingBlock s).velY = 0 ∧
    (VB.landingBlock s).timeSinceGrounded = 0 := by
  unfold VB.landingBlock
  rw [hg]
  simp [hv]

theorem vb_applyPhysics_ground (i : VB.BInput) (s : VB.BState)
    (h : (VB.applyPhysicsAndCollisions i s).onGround = true) :
    (VB.applyPhysicsAndCollisions i s).jumpCount = 0 ∧
    (VB.applyPhysicsAndCollisions i s).velY = 0 ∧
    (VB.applyPhysicsAndCollisions i s).timeSinceGrounded = 0 := by
  unfold VB.applyPhysicsAndCollisions at h ⊢
  generalize hz : VB.moveCollideZ i (VB.moveCollideX i (VB.gravityStep i.dt s)) = t at h ⊢
  have hg : (VB.moveCollideY i t).onGround = true := by
    rwa [vb_landingBlock_onGround] at h
  have hv : (VB.moveCollideY i t).velY = 0 := (vb_moveCollideY_ground _ _ hg).1
  exact vb_landingBlock_of_ground _ hg hv

end Lemmas

/-- C1: A buffered jump press in an airborne state with jump budget left
(jumpCount = 1 < 3) but with the coyote timer expired
(timeSinceGrounded = 1/5, not below COYOTE_TIME = 1/10) and no wall contact
performs no jump at all: the state is returned unchanged, the vertical
velocity is not set to the jump force and the jump count is not incremented.
This refutes the claim that a buffered press is accepted exactly when the
aerial jump budget is positive. -/
theorem c1_counterexample :
    VB.handleJump
        ⟨0, 5, 0, 0, 0, 0, 1, false, 1/5, 1/20, false, 0, 0, true⟩ =
      ⟨0, 5, 0, 0, 0, 0, 1, false, 1/5, 1/20, false, 0, 0, true⟩ ∧
    (VB.handleJump
        ⟨0, 5, 0, 0, 0, 0, 1, false, 1/5, 1/20, false, 0, 0, true⟩).velY ≠ 12 ∧
    (VB.handleJump
        ⟨0, 5, 0, 0, 0, 0, 1, false, 1/5, 1/20, false, 0, 0, true⟩).jumpCount = 1 ∧
    ((1 : ℚ)/20 < 1/10 ∧ (1 : ℕ) < 3) := by
  have e : VB.handleJump
      ⟨0, 5, 0, 0, 0, 0, 1, false, 1/5, 1/20, false, 0, 0, true⟩ =
      ⟨0, 5, 0, 0, 0, 0, 1, false, 1/5, 1/20, false, 0, 0, true⟩ := by
    unfold VB.handleJump
    norm_num
  refine ⟨e, ?_, ?_, by norm_num⟩
  · rw [e]; norm_num
  · rw [e]

/-- C1 (amended): a buffered jump press (timeSinceJumpPressed below the
buffer window 0.1) performs an aerial jump exactly when additionally the
coyote window is open (timeSinceGrounded below 0.1) and the jump count is
below MAX_JUMPS = 3 - setting vertical velocity to the jump force 12,
incrementing the jump count and leaving the ground; when that gate fails
but a wall is touched, the distinct wall-jump imparts horizontal velocity
along the stored wall normal scaled by WALL_JUMP_FORCE = 10 and resets the
jump count to 1; when neither applies, no jump happens. -/
theorem c1_amended :
    (∀ s : VB.BState, s.timeSinceJumpPressed < 1/10 → s.timeSinceGrounded < 1/10 →
      s.jumpCount < 3 →
      VB.handleJump s = VB.performJump s ∧ (VB.performJump s).velY = 12 ∧
      (VB.performJump s).jumpCount = s.jumpCount + 1 ∧
      (VB.performJump s).onGround = false) ∧
    (∀ s : VB.BState, s.timeSinceJumpPressed < 1/10 →
      ¬ (s.timeSinceGrounded < 1/10 ∧ s.jumpCount < 3) → s.isTouchingWall = true →
      VB.handleJump s = VB.performWallJump s ∧
      (VB.performWallJump s).velX = s.wallNormalX * 10 ∧
      (VB.performWallJump s).velZ = s.wallNormalZ * 10 ∧
      (VB.performWallJump s).velY = 12 * (9/10) ∧
      (VB.performWallJump s).jumpCount = 1) ∧
    (∀ s : VB.BState, ¬ (s.timeSinceGrounded < 1/10 ∧ s.jumpCount < 3) →
      s.isTouchingWall = false → VB.handleJump s = s) := by
  refine ⟨?_, ?_, ?_⟩
  · intro s h1 h2 h3
    refine ⟨?_, rfl, rfl, rfl⟩
    unfold VB.handleJump
    rw [if_pos h1, if_pos ⟨h2, h3⟩]
  · intro s h1 h2 hw
    refine ⟨?_, rfl, rfl, rfl, rfl⟩
    unfold VB.handleJump
    rw [if_pos h1, if_neg h2, if_pos hw]
  · intro s h2 hw
    unfold VB.handleJump
    by_cases hb : s.timeSinceJumpPressed < 1/10
    · rw [if_pos hb, if_neg h2, if_neg (by simp [hw])]
    · rw [if_neg hb]

/-- C1 witness: the amended theorem evaluated at concrete states - a fresh
grounded-window state that jumps, an expired-window wall state that
wall-jumps, and an expired-window free state that does nothing. -/
theorem c1_witness :
    (VB.handleJump ⟨0, 0, 0, 0, 0, 0, 0, true, 0, 0, false, 0, 0, true⟩ =
        VB.performJump ⟨0, 0, 0, 0, 0, 0, 0, true, 0, 0, false, 0, 0, true⟩) ∧
    (VB.handleJump ⟨0, 5, 0, 0, -2, 0, 2, false, 1/5, 1/20, true, 1, 0, true⟩ =
        VB.performWallJump ⟨0, 5, 0, 0, -2, 0, 2, false, 1/5, 1/20, true, 1, 0, true⟩) ∧
    (VB.performWallJump
        ⟨0, 5, 0, 0, -2, 0, 2, false, 1/5, 1/20, true, 1, 0, true⟩).velX = 1 * 10 ∧
    (VB.handleJump ⟨0, 5, 0, 0, 0, 0, 1, false, 1/5, 1/2, false, 0, 0, true⟩ =
        ⟨0, 5, 0, 0, 0, 0, 1, false, 1/5, 1/2, false, 0, 0, true⟩) := by
  refine ⟨?_, ?_, ?_, ?_⟩
  · exact (c1_amended.1 _ (by norm_num) (by norm_num) (by norm_num)).1
  · exact (c1_amended.2.1 _ (by norm_num) (by norm_num) rfl).1
  · exact (c1_amended.2.1 _ (by norm_num) (by norm_num) rfl).2.1
  · exact c1_amended.2.2 _ (by norm_num) rfl

/-- C4: the landing contract of variant B.  First, after any frame the
grounded state has jump count 0, vertical velocity 0 and grounded timer 0
(so every reachable grounded state carries jump count 0).  Second, on a
landing transition - the state entering the physics pass non-grounded and
leaving it grounded, which the resolver only produces on a downward contact -
the jump count and vertical velocity are reset to 0.  Third, on any state
satisfying the reachable-state invariant (grounded implies jump count 0), a
frame can take a nonzero jump count to 0 only through such a landing
transition: the movement phase ends non-grounded, the frame ends grounded,
and the vertical velocity entering the collision passes is downward. -/
theorem c4_landing_resets :
    (∀ (k : NumKernel) (i : VB.BInput) (s : VB.BState),
      (VB.frameStep k i s).onGround = true →
      (VB.frameStep k i s).jumpCount = 0 ∧ (VB.frameStep k i s).velY = 0 ∧
        (VB.frameStep k i s).timeSinceGrounded = 0) ∧
    (∀ (i : VB.BInput) (s : VB.BState), s.onGround = false →
      (VB.applyPhysicsAndCollisions i s).onGround = true →
      (VB.applyPhysicsAndCollisions i s).jumpCount = 0 ∧
        (VB.applyPhysicsAndCollisions i s).velY = 0) ∧
    (∀ (k : NumKernel) (i : VB.BInput) (s : VB.BState),
      (s.onGround = true → s.jumpCount = 0) → s.jumpCount ≠ 0 →
      (VB.frameStep k i s).jumpCount = 0 →
      (VB.movePhase k i s).onGround = false ∧
        (VB.frameStep k i s).onGround = true ∧
        (VB.gravityStep i.dt (VB.movePhase k i s)).velY < 0) := by
  refine ⟨?_, ?_, ?_⟩
  · intro k i s h
    exact vb_applyPhysics_ground i (VB.movePhase k i s) h
  · intro i s hng h
    exact ⟨(vb_applyPhysics_ground i s h).1, (vb_applyPhysics_ground i s h).2.1⟩
  · intro k i s hinv hne hzero
    have hsg : s.onGround = false := by
      cases hg : s.onGround
      · rfl
      · exact absurd (hinv hg) hne
    have hm : (VB.movePhase k i s).onGround = false := vb_movePhase_onGround k i s hsg
    have hmc : (VB.movePhase k i s).jumpCount ≠ 0 := vb_movePhase_jumpCount_ne k i s hne
    have hframe : VB.frameStep k i s =
        VB.landingBlock (VB.moveCollideY i (VB.moveCollideZ i
          (VB.moveCollideX i (VB.gravityStep i.dt (VB.movePhase k i s))))) := rfl
    set m := VB.movePhase k i s with hmdef
    set t2 := VB.moveCollideZ i (VB.moveCollideX i (VB.gravityStep i.dt m)) with ht2
    have ht2c : t2.jumpCount ≠ 0 := by
      rw [ht2, (vb_moveCollideZ_fields _ _).2.1, (vb_moveCollideX_fields _ _).2.1,
        (vb_gravityStep_fields _ _).1]
      exact hmc
    have hs4c : (VB.moveCollideY i t2).jumpCount ≠ 0 := by
      rw [vb_moveCollideY_jumpCount]
      exact ht2c
    rw [hframe] at hzero
    have hland := vb_landingBlock_jumpCount_zero _ hzero hs4c
    have hdown : t2.velY < 0 := (vb_moveCollideY_ground i t2 hland.1).2
    have hvel : t2.velY = (VB.gravityStep i.dt m).velY := by
      rw [ht2, (vb_moveCollideZ_fields _ _).1, (vb_moveCollideX_fields _ _).1]
    refine ⟨hm, ?_, ?_⟩
    · rw [hframe, vb_landingBlock_onGround]
      exact hland.1
    · rw [← hvel]
      exact hdown

/-- C4 witness: a concrete landing frame - airborne with jump count 2,
colliding below while falling - evaluated through the theorem: the frame
ends grounded with jump count 0, vertical velocity 0 and a downward contact
velocity, and the only-on-landing direction is exercised on the same frame. -/
theorem c4_witness :
    ((VB.frameStep kZero ⟨1/60, ⟨false, false, false, false, false, false⟩,
        ⟨false, false, false, false, false, false⟩, 0, 0, false, 0, false, 0, true, 0⟩
        ⟨0, 1, 0, 0, 0, 0, 2, false, 1, 1, false, 0, 0, true⟩).jumpCount = 0 ∧
      (VB.frameStep kZero ⟨1/60, ⟨false, false, false, false, false, false⟩,
        ⟨false, false, false, false, false, false⟩, 0, 0, false, 0, false, 0, true, 0⟩
        ⟨0, 1, 0, 0, 0, 0, 2, false, 1, 1, false, 0, 0, true⟩).velY = 0 ∧
      (VB.frameStep kZero ⟨1/60, ⟨false, false, false, false, false, false⟩,
        ⟨false, false, false, false, false, false⟩, 0, 0, false, 0, false, 0, true, 0⟩
        ⟨0, 1, 0, 0, 0, 0, 2, false, 1, 1, false, 0, 0, true⟩).timeSinceGrounded = 0) ∧
    (VB.movePhase kZero ⟨1/60, ⟨false, false, false, false, false, false⟩,
        ⟨false, false, false, false, false, false⟩, 0, 0, false, 0, false, 0, true, 0⟩
        ⟨0, 1, 0, 0, 0, 0, 2, false, 1, 1, false, 0, 0, true⟩).onGround = false := by
  have hg : (VB.frameStep kZero ⟨1/60, ⟨false, false, false, false, false, false⟩,
      ⟨false, false, false, false, false, false⟩, 0, 0, false, 0, false, 0, true, 0⟩
      ⟨0, 1, 0, 0, 0, 0, 2, false, 1, 1, false, 0, 0, true⟩).onGround = true := by
    unfold VB.frameStep VB.movePhase VB.updateTimers VB.handlePlayerMovement
      VB.dampedHorizontalVel VB.handleJump VB.performJump VB.performWallJump
      VB.applyPhysicsAndCollisions VB.gravityStep VB.moveCollideX VB.moveCollideZ
      VB.moveCollideY VB.checkCollisionsX VB.checkCollisionsZ VB.checkCollisionsY
      VB.landingBlock damp kZero
    norm_num
  refine ⟨c4_landing_resets.1 kZero _ _ hg, ?_⟩
  exact (c4_landing_resets.2.2 kZero _ _ (by intro h; simp at h) (by norm_num)
    (c4_landing_resets.1 kZero _ _ hg).1).1

section PoolLemmas

theorem vb_emitBurst_measure (pos : Vec3) (rl : ℕ → ℚ) (r : ℕ → ℚ × ℚ × ℚ) :
    ∀ (count : ℕ) (st : VB.PoolState),
      (VB.emitParticleBurst pos rl r count st).pool +
        (VB.emitParticleBurst pos rl r count st).active.length =
      st.pool + st.active.length := by
  intro count
  induction count with
  | zero => intro st; rfl
  | succ n ih =>
    intro st
    unfold VB.emitParticleBurst
    by_cases h : st.pool = 0
    · rw [if_pos h]
    · rw [if_neg h]
      rw [ih]
      simp only [List.length_cons]
      omega

theorem vb_emitBurst_count (pos : Vec3) (rl : ℕ → ℚ) (r : ℕ → ℚ × ℚ × ℚ) :
    ∀ (count : ℕ) (st : VB.PoolState),
      (VB.emitParticleBurst pos rl r count st).pool = st.pool - Min.min count st.pool ∧
      (VB.emitParticleBurst pos rl r count st).active.length =
        st.active.length + Min.min count st.pool := by
  intro count
  induction count with
  | zero => intro st; constructor <;> simp [VB.emitParticleBurst]
  | succ n ih =>
    intro st
    unfold VB.emitParticleBurst
    by_cases h : st.pool = 0
    · rw [if_pos h]
      constructor <;> simp [h]
    · rw [if_neg h]
      dsimp only
      constructor
      · rw [(ih _).1]
        dsimp only
        omega
      · rw [(ih _).2]
        dsimp only
        simp only [List.length_cons]
        omega

theorem vb_tick_filter_le (dt : ℚ) (l : List VB.Particle) :
    ((l.map (VB.tickParticle dt)).filter (fun p => p.lifetime ≤ 0)).length =
      (l.filter (fun p => p.lifetime - dt ≤ 0)).length := by
  rw [List.filter_map, List.length_map]
  congr 1

theorem vb_tick_filter_gt (dt : ℚ) (l : List VB.Particle) :
    ((l.map (VB.tickParticle dt)).filter (fun p => ¬ p.lifetime ≤ 0)).length =
      (l.filter (fun p => ¬ p.lifetime - dt ≤ 0)).length := by
  rw [List.filter_map, List.length_map]
  congr 1

theorem vb_filter_split (dt : ℚ) (l : List VB.Particle) :
    (l.filter (fun p => p.lifetime - dt ≤ 0)).length +
      (l.filter (fun p => ¬ p.lifetime - dt ≤ 0)).length = l.length := by
  have h := List.length_eq_length_filter_add (l := l)
    (fun p => decide (p.lifetime - dt ≤ 0))
  have e : (fun (p : VB.Particle) => decide (¬ p.lifetime - dt ≤ 0)) =
      (fun p => ! decide (p.lifetime - dt ≤ 0)) :=
    funext fun p => decide_not
  rw [e]
  omega

theorem vb_applyPoolOp_measure (st : VB.PoolState) (op : VB.PoolOp) :
    (VB.applyPoolOp st op).pool + (VB.applyPoolOp st op).active.length =
      st.pool + st.active.length := by
  cases op with
  | burst pos rl r count => exact vb_emitBurst_measure pos rl r count st
  | sprint gate p vX vZ randY =>
    simp only [VB.applyPoolOp]
    unfold VB.emitSprintParticle
    split_ifs with h
    · rfl
    · simp only [List.length_cons]
      omega
  | wallSlide gate p nX nZ randY randH =>
    simp only [VB.applyPoolOp]
    unfold VB.emitWallSlideParticle
    split_ifs with h
    · rfl
    · simp only [List.length_cons]
      omega
  | tick dt =>
    simp only [VB.applyPoolOp]
    unfold VB.updateParticles
    dsimp only
    rw [vb_tick_filter_le, vb_tick_filter_gt]
    have := vb_filter_split dt st.active
    omega

theorem vb_runPoolOps_measure :
    ∀ (ops : List VB.PoolOp) (st : VB.PoolState),
      (VB.runPoolOps st ops).pool + (VB.runPoolOps st ops).active.length =
        st.pool + st.active.length := by
  intro ops
  induction ops with
  | nil => intro st; rfl
  | cons op rest ih =>
    intro st
    unfold VB.runPoolOps
    rw [ih]
    exact vb_applyPoolOp_measure st op

end PoolLemmas

/-- C5: particle-pool conservation in variant B.  After any sequence of
subsystem events from initialization, the idle-pool count plus the number of
active particles equals the fixed capacity 100.  Emission from an exhausted
pool is a no-op, and in general a burst moves exactly min(count, pool)
particles from idle to active, never allocating beyond capacity.  Ticking
returns to the idle pool exactly the particles whose lifetime has crossed
zero after the decrement, and keeps exactly the others active. -/
theorem c5_pool_conservation :
    (∀ ops : List VB.PoolOp,
      (VB.runPoolOps VB.initPool ops).pool +
        (VB.runPoolOps VB.initPool ops).active.length = 100) ∧
    (∀ (st : VB.PoolState) (pos : Vec3) (rl : ℕ → ℚ) (r : ℕ → ℚ × ℚ × ℚ) (n : ℕ),
      st.pool = 0 → VB.emitParticleBurst pos rl r n st = st) ∧
    (∀ (st : VB.PoolState) (pos : Vec3) (rl : ℕ → ℚ) (r : ℕ → ℚ × ℚ × ℚ) (n : ℕ),
      (VB.emitParticleBurst pos rl r n st).pool = st.pool - Min.min n st.pool ∧
      (VB.emitParticleBurst pos rl r n st).active.length =
        st.active.length + Min.min n st.pool) ∧
    (∀ (dt : ℚ) (st : VB.PoolState),
      (VB.updateParticles dt st).pool =
        st.pool + (st.active.filter (fun p => p.lifetime - dt ≤ 0)).length ∧
      (VB.updateParticles dt st).active.length =
        (st.active.filter (fun p => ¬ p.lifetime - dt ≤ 0)).length) := by
  refine ⟨?_, ?_, ?_, ?_⟩
  · intro ops
    exact vb_runPoolOps_measure ops VB.initPool
  · intro st pos rl r n h
    cases n with
    | zero => rfl
    | succ m =>
      unfold VB.emitParticleBurst
      rw [if_pos h]
  · intro st pos rl r n
    exact vb_emitBurst_count pos rl r n st
  · intro dt st
    constructor
    · unfold VB.updateParticles
      dsimp only
      rw [vb_tick_filter_le]
    · unfold VB.updateParticles
      dsimp only
      rw [vb_tick_filter_gt]

/-- C5 witness: the theorem evaluated on concrete data - a burst of 3 into
the fresh pool, the exhausted-pool no-op, and a tick that retires one of two
particles. -/
theorem c5_witness :
    (VB.runPoolOps VB.initPool
        [VB.PoolOp.burst ⟨0, 0, 0⟩ (fun _ => 1/2) (fun _ => (1, 2, 3)) 3]).pool +
      (VB.runPoolOps VB.initPool
        [VB.PoolOp.burst ⟨0, 0, 0⟩ (fun _ => 1/2) (fun _ => (1, 2, 3)) 3]).active.length
      = 100 ∧
    VB.emitParticleBurst ⟨0, 0, 0⟩ (fun _ => 1/2) (fun _ => (1, 2, 3)) 5
        ⟨0, []⟩ = ⟨0, []⟩ ∧
    (VB.updateParticles (1/2)
        ⟨98, [⟨1/4, 0, 0, 0, 0, 0, 0, 1⟩, ⟨1, 0, 0, 0, 0, 0, 0, 1⟩]⟩).pool =
      98 + ([(⟨1/4, 0, 0, 0, 0, 0, 0, 1⟩ : VB.Particle), ⟨1, 0, 0, 0, 0, 0, 0, 1⟩].filter
        (fun p => p.lifetime - 1/2 ≤ 0)).length := by
  refine ⟨c5_pool_conservation.1 _, c5_pool_conservation.2.1 _ _ _ _ _ rfl, ?_⟩
  exact (c5_pool_conservation.2.2.2 (1/2)
    ⟨98, [⟨1/4, 0, 0, 0, 0, 0, 0, 1⟩, ⟨1, 0, 0, 0, 0, 0, 0, 1⟩]⟩).1

theorem va_drainAcc_spec (acc : ℚ) :
    (∀ d ∈ (VA.drainAcc acc).1, d = 1/60) ∧
    (VA.drainAcc acc).2 < 1/60 ∧
    (0 ≤ acc → 0 ≤ (VA.drainAcc acc).2) ∧
    acc = (VA.drainAcc acc).2 + (VA.drainAcc acc).1.length * (1/60) := by
  induction acc using VA.drainAcc.induct with
  | case1 acc h ih =>
    rw [VA.drainAcc, dif_pos h]
    refine ⟨?_, ?_, ?_, ?_⟩
    · intro d hd
      rw [List.mem_cons] at hd
      rcases hd with h1 | h1
      · exact h1
      · exact ih.1 d h1
    · exact ih.2.1
    · intro _
      exact ih.2.2.1 (by linarith)
    · have := ih.2.2.2
      simp only [List.length_cons]
      push_cast
      linarith
  | case2 acc h =>
    rw [VA.drainAcc, dif_neg h]
    refine ⟨by simp, by simpa using lt_of_not_ge h, fun h0 => h0, by simp⟩

/-- C2: variant B has no fixed-step accumulator.  Its animate callback hands
the clamped raw clock delta straight to the update: two frame deltas below
the 0.05 clamp reach the physics update unchanged and unequal, and neither
equals the variant-A fixed step 1/60 - so it is false that every frame
callback accumulates time and feeds physics only the constant fixed step. -/
theorem c2_counterexample :
    VB.animateDt (3/100) = 3/100 ∧ VB.animateDt (1/25) = 1/25 ∧
    VB.animateDt (3/100) ≠ VB.animateDt (1/25) ∧
    VB.animateDt (3/100) ≠ 1/60 := by
  have e1 : VB.animateDt (3/100) = 3/100 := by
    unfold VB.animateDt
    exact min_eq_left (by norm_num)
  have e2 : VB.animateDt (1/25) = 1/25 := by
    unfold VB.animateDt
    exact min_eq_left (by norm_num)
  refine ⟨e1, e2, ?_, ?_⟩
  · rw [e1, e2]; norm_num
  · rw [e1]; norm_num

/-- C2 (amended): the fixed-step claim holds for the variant-A loop.  From a
well-formed accumulator (non-negative, below the step) and a non-negative
raw delta, a frame invocation clamps the delta to 0.1, and every dt handed to
the fixed update equals FIXED_STEP = 1/60; the residual accumulator stays in
[0, 1/60), and the clamped delta is conserved as executed steps plus
residual.  Variant B instead passes the clamped raw delta directly to its
update (the counterexample theorem). -/
theorem c2_amended :
    ∀ rawDt acc : ℚ, 0 ≤ rawDt → 0 ≤ acc → acc < 1/60 →
      (∀ d ∈ (VA.loopFrame rawDt acc).1, d = 1/60) ∧
      Min.min rawDt (1/10) ≤ 1/10 ∧
      0 ≤ (VA.loopFrame rawDt acc).2 ∧ (VA.loopFrame rawDt acc).2 < 1/60 ∧
      acc + Min.min rawDt (1/10) =
        (VA.loopFrame rawDt acc).2 + (VA.loopFrame rawDt acc).1.length * (1/60) := by
  intro rawDt acc hr ha hlt
  have hdt : 0 ≤ Min.min rawDt (1/10) := le_min hr (by norm_num)
  have hspec := va_drainAcc_spec (acc + Min.min rawDt (1/10))
  have hloop : VA.loopFrame rawDt acc = VA.drainAcc (acc + Min.min rawDt (1/10)) := rfl
  rw [hloop]
  refine ⟨hspec.1, min_le_right _ _, hspec.2.2.1 (by linarith), hspec.2.1, hspec.2.2.2⟩

/-- C2 witness: one frame with raw delta 1/30 from an empty accumulator runs
fixed steps of 1/60 only and conserves the time budget. -/
theorem c2_witness :
    (∀ d ∈ (VA.loopFrame (1/30) 0).1, d = 1/60) ∧
    Min.min (1/30 : ℚ) (1/10) ≤ 1/10 ∧
    0 ≤ (VA.loopFrame (1/30) 0).2 ∧ (VA.loopFrame (1/30) 0).2 < 1/60 ∧
    (0 : ℚ) + Min.min (1/30 : ℚ) (1/10) =
      (VA.loopFrame (1/30) 0).2 + (VA.loopFrame (1/30) 0).1.length * (1/60) :=
  c2_amended (1/30) 0 (by norm_num) (by norm_num) (by norm_num)

section CollectibleLemmas

theorem va_collectScan_length (k : NumKernel) (p : Vec3) :
    ∀ (l : List VA.Simit) (sc t : ℕ), (VA.collectScan k p l sc t).1.length = l.length := by
  intro l
  induction l with
  | nil => intro sc t; rfl
  | cons c rest ih =>
    intro sc t
    unfold VA.collectScan
    split_ifs <;> simp [ih]

theorem va_collectScan_survivors (k : NumKernel) (p : Vec3) :
    ∀ (l : List VA.Simit) (sc t : ℕ) (c : VA.Simit),
      c ∈ (VA.collectScan k p l sc t).1 → c.active = true →
      ¬ k.sqrtFn ((c.pos.x - p.x) ^ 2 + (c.pos.z - p.z) ^ 2) < 5 := by
  intro l
  induction l with
  | nil => intro sc t c hc; simp [VA.collectScan] at hc
  | cons a rest ih =>
    intro sc t c hc hact
    unfold VA.collectScan at hc
    split_ifs at hc with h1 h2
    · dsimp only at hc
      rw [List.mem_cons] at hc
      rcases hc with h | h
      · rw [h] at hact
        simp at hact
      · exact ih _ _ _ h hact
    · dsimp only at hc
      rw [List.mem_cons] at hc
      rcases hc with h | h
      · rw [h] at hact ⊢
        exact h2
      · exact ih _ _ _ h hact
    · dsimp only at hc
      rw [List.mem_cons] at hc
      rcases hc with h | h
      · rw [h] at hact
        exact absurd hact (by simpa using h1)
      · exact ih _ _ _ h hact

theorem va_collectScan_stable (k : NumKernel) (p : Vec3) :
    ∀ (l : List VA.Simit) (sc t : ℕ),
      (∀ c ∈ l, c.active = true →
        ¬ k.sqrtFn ((c.pos.x - p.x) ^ 2 + (c.pos.z - p.z) ^ 2) < 5) →
      VA.collectScan k p l sc t = (l, sc, []) := by
  intro l
  induction l with
  | nil => intro sc t _; rfl
  | cons a rest ih =>
    intro sc t hl
    unfold VA.collectScan
    have hrest : ∀ c ∈ rest, c.active = true →
        ¬ k.sqrtFn ((c.pos.x - p.x) ^ 2 + (c.pos.z - p.z) ^ 2) < 5 :=
      fun c hc => hl c (List.mem_cons_of_mem _ hc)
    split_ifs with h1 h2
    · exact absurd h2 (hl a (List.mem_cons_self _ _) h1)
    · rw [ih _ _ hrest]
    · rw [ih _ _ hrest]

theorem va_collectScan_events (k : NumKernel) (p : Vec3) :
    ∀ (l : List VA.Simit) (sc t : ℕ) (ev : VA.EventA),
      ev ∈ (VA.collectScan k p l sc t).2.2 → ∃ n, ev = .scoreUpdate n t := by
  intro l
  induction l with
  | nil => intro sc t ev hev; simp [VA.collectScan] at hev
  | cons a rest ih =>
    intro sc t ev hev
    unfold VA.collectScan at hev
    split_ifs at hev
    · dsimp only at hev
      rw [List.mem_cons] at hev
      rcases hev with h | h
      · exact ⟨sc + 1, h⟩
      · exact ih _ _ _ h
    · exact ih _ _ _ hev
    · exact ih _ _ _ hev

theorem vb_collectRev_survivors (k : NumKernel) (p : Vec3) :
    ∀ (l : List VB.CollectibleB) (sc : ℕ) (c : VB.CollectibleB),
      c ∈ (VB.collectRev k p l sc).1 → ¬ VB.distToPlayer k p c < 3/2 := by
  intro l
  induction l with
  | nil => intro sc c hc; simp [VB.collectRev] at hc
  | cons a rest ih =>
    intro sc c hc
    unfold VB.collectRev at hc
    split_ifs at hc with h1
    · exact ih _ _ hc
    · dsimp only at hc
      rw [List.mem_cons] at hc
      rcases hc with h | h
      · rw [h]; exact h1
      · exact ih _ _ h

theorem vb_collectRev_stable (k : NumKernel) (p : Vec3) :
    ∀ (l : List VB.CollectibleB) (sc : ℕ),
      (∀ c ∈ l, ¬ VB.distToPlayer k p c < 3/2) →
      VB.collectRev k p l sc = (l, sc, []) := by
  intro l
  induction l with
  | nil => intro sc _; rfl
  | cons a rest ih =>
    intro sc hl
    unfold VB.collectRev
    rw [if_neg (hl a (List.mem_cons_self _ _))]
    rw [ih _ (fun c hc => hl c (List.mem_cons_of_mem _ hc))]

theorem vb_collectRev_events (k : NumKernel) (p : Vec3) :
    ∀ (l : List VB.CollectibleB) (sc : ℕ) (ev : VB.ScoreEvent),
      ev ∈ (VB.collectRev k p l sc).2.2 → ∃ n, ev = .scoreUpdate n 80 := by
  intro l
  induction l with
  | nil => intro sc ev hev; simp [VB.collectRev] at hev
  | cons a rest ih =>
    intro sc ev hev
    unfold VB.collectRev at hev
    split_ifs at hev
    · dsimp only at hev
      rw [List.mem_cons] at hev
      rcases hev with h | h
      · exact ⟨sc + 1, h⟩
      · exact ih _ _ h
    · exact ih _ _ hev

end CollectibleLemmas

/-- C3: in variant B, picking up a collectible removes the entity from the
collectible set rather than toggling an active flag: with the player on top
of the sole collectible, one pickup scan leaves an empty set (cardinality
drops from 1 to 0), the score is incremented and the reported total is the
hard-coded constant 80, not the set's cardinality. -/
theorem c3_counterexample :
    (VB.checkCollectibleCollisions kZero ⟨0, 0, 0⟩ [⟨0, 0, 0⟩] 0).1 = [] ∧
    (VB.checkCollectibleCollisions kZero ⟨0, 0, 0⟩ [⟨0, 0, 0⟩] 0).2.1 = 1 ∧
    (VB.checkCollectibleCollisions kZero ⟨0, 0, 0⟩ [⟨0, 0, 0⟩] 0).2.2 =
      [.scoreUpdate 1 80] ∧
    ([(⟨0, 0, 0⟩ : VB.CollectibleB)].length = 1) := by
  have h : VB.checkCollectibleCollisions kZero ⟨0, 0, 0⟩ [⟨0, 0, 0⟩] 0 =
      ([], 1, [.scoreUpdate 1 80]) := by
    norm_num [VB.checkCollectibleCollisions, VB.collectRev, VB.distToPlayer, kZero]
  rw [h]
  exact ⟨rfl, rfl, rfl, rfl⟩

/-- C3 (amended): in variant A, the pickup check is idempotent and preserves
the collectible-set cardinality (pickups only toggle the active flag), and
every score event reports the fixed per-call total; in variant B, the pickup
check removes picked entities from the set, but it is still idempotent (a
second frame within range cannot increment the score again, the entity being
gone) and every score event reports the fixed constant TOTAL_COLLECTIBLES =
80 as the total, independent of the set's true cardinality. -/
theorem c3_amended :
    (∀ (k : NumKernel) (p : Vec3) (l : List VA.Simit) (sc t : ℕ),
      (VA.collectScan k p l sc t).1.length = l.length) ∧
    (∀ (k : NumKernel) (s : VA.AState),
      VA.updateEntitiesCollect k (VA.updateEntitiesCollect k s) =
        VA.updateEntitiesCollect k s) ∧
    (∀ (k : NumKernel) (p : Vec3) (l : List VA.Simit) (sc t : ℕ) (ev : VA.EventA),
      ev ∈ (VA.collectScan k p l sc t).2.2 → ∃ n, ev = .scoreUpdate n t) ∧
    (∀ (k : NumKernel) (p : Vec3) (l : List VB.CollectibleB) (sc : ℕ)
        (ev : VB.ScoreEvent),
      ev ∈ (VB.checkCollectibleCollisions k p l sc).2.2 → ∃ n, ev = .scoreUpdate n 80) ∧
    (∀ (k : NumKernel) (p : Vec3) (l : List VB.CollectibleB) (sc : ℕ),
      VB.checkCollectibleCollisions k p
          (VB.checkCollectibleCollisions k p l sc).1
          (VB.checkCollectibleCollisions k p l sc).2.1 =
        ((VB.checkCollectibleCollisions k p l sc).1,
         (VB.checkCollectibleCollisions k p l sc).2.1, [])) := by
  refine ⟨fun k p l sc t => va_collectScan_length k p l sc t, ?_, ?_, ?_, ?_⟩
  · intro k s
    have hp : (VA.updateEntitiesCollect k s).pPos = s.pPos := rfl
    have hsurv : ∀ c ∈ (VA.updateEntitiesCollect k s).collectibles, c.active = true →
        ¬ k.sqrtFn ((c.pos.x - s.pPos.x) ^ 2 + (c.pos.z - s.pPos.z) ^ 2) < 5 := by
      intro c hc
      exact va_collectScan_survivors k s.pPos _ _ _ c hc
    conv_lhs => rw [VA.updateEntitiesCollect]
    rw [hp]
    rw [va_collectScan_stable k s.pPos _ _ _ hsurv]
    simp
    rw [← hp]
  · intro k p l sc t ev hev
    exact va_collectScan_events k p l sc t ev hev
  · intro k p l sc ev hev
    exact vb_collectRev_events k p l.reverse sc ev hev
  · intro k p l sc
    have hsurv : ∀ c ∈ ((VB.collectRev k p l.reverse sc).1.reverse : List VB.CollectibleB),
        ¬ VB.distToPlayer k p c < 3/2 := by
      intro c hc
      rw [List.mem_reverse] at hc
      exact vb_collectRev_survivors k p l.reverse sc c hc
    show (((VB.collectRev k p _ _).1.reverse : List VB.CollectibleB), _, _) = _
    rw [show ((VB.checkCollectibleCollisions k p l sc).1 : List VB.CollectibleB).reverse =
      (VB.collectRev k p l.reverse sc).1.reverse.reverse from rfl]
    rw [List.reverse_reverse]
    rw [vb_collectRev_stable k p _ _ (by
      intro c hc
      exact vb_collectRev_survivors k p l.reverse sc c hc)]
    rfl

/-- C3 witness: variant-A idempotence and event shape on a one-collectible
state with the player in range, and variant-B idempotence after the removing
pickup of the counterexample. -/
theorem c3_witness :
    (VA.updateEntitiesCollect kZero (VA.updateEntitiesCollect kZero
        ⟨⟨0, 0, 0⟩, ⟨0, 0, 0⟩, true, 0, 0, ⟨0, 0, 0⟩, ⟨0, 0, 0⟩, 9, 0,
         [⟨⟨1, 2, 1⟩, true, true, 2⟩], true, 0, 0, []⟩) =
      VA.updateEntitiesCollect kZero
        ⟨⟨0, 0, 0⟩, ⟨0, 0, 0⟩, true, 0, 0, ⟨0, 0, 0⟩, ⟨0, 0, 0⟩, 9, 0,
         [⟨⟨1, 2, 1⟩, true, true, 2⟩], true, 0, 0, []⟩) ∧
    (∃ n, (VA.EventA.scoreUpdate 1 1) = VA.EventA.scoreUpdate n 1) ∧
    VB.checkCollectibleCollisions kZero ⟨0, 0, 0⟩
        (VB.checkCollectibleCollisions kZero ⟨0, 0, 0⟩ [⟨0, 0, 0⟩] 0).1
        (VB.checkCollectibleCollisions kZero ⟨0, 0, 0⟩ [⟨0, 0, 0⟩] 0).2.1 =
      ((VB.checkCollectibleCollisions kZero ⟨0, 0, 0⟩ [⟨0, 0, 0⟩] 0).1,
       (VB.checkCollectibleCollisions kZero ⟨0, 0, 0⟩ [⟨0, 0, 0⟩] 0).2.1, []) := by
  refine ⟨c3_amended.2.1 kZero _, ?_, c3_amended.2.2.2.2 kZero ⟨0, 0, 0⟩ [⟨0, 0, 0⟩] 0⟩
  exact c3_amended.2.2.1 kZero ⟨0, 0, 0⟩ [⟨⟨1, 2, 1⟩, true, true, 2⟩] 0 1
    (.scoreUpdate 1 1)
    (by
      unfold VA.collectScan VA.Simit.active kZero
      norm_num)

/-- C6: the floor check of variant A, when the player height is below the
threshold -10, performs exactly one respawn game event: the lives counter
drops by one, onLivesUpdate fires exactly once with the remaining lives, and
the player is re-placed at the respawn point (0, 25, 0) with zero velocity -
an ordinary state transition, not an exception. -/
theorem c6_respawn_event :
    ∀ s : VA.AState, s.pPos.y < -10 →
      VA.floorCheck s = VA.respawn s ∧
      (VA.respawn s).lives = s.lives - 1 ∧
      (VA.respawn s).events = s.events ++ [.livesUpdate (s.lives - 1)] ∧
      (VA.respawn s).pPos = ⟨0, 25, 0⟩ ∧
      (VA.respawn s).pVel = Vec3.zero := by
  intro s h
  refine ⟨?_, rfl, rfl, rfl, rfl⟩
  unfold VA.floorCheck
  rw [if_pos h]

/-- C6 witness: the respawn event evaluated at a concrete state at height
-11 with 9 lives. -/
theorem c6_witness :
    VA.floorCheck
        ⟨⟨0, -11, 0⟩, ⟨0, 0, 0⟩, false, 0, 0, ⟨0, 0, 0⟩, ⟨0, 0, 0⟩, 9, 0, [],
         true, 0, 0, []⟩ =
      VA.respawn
        ⟨⟨0, -11, 0⟩, ⟨0, 0, 0⟩, false, 0, 0, ⟨0, 0, 0⟩, ⟨0, 0, 0⟩, 9, 0, [],
         true, 0, 0, []⟩ ∧
    (VA.respawn
        ⟨⟨0, -11, 0⟩, ⟨0, 0, 0⟩, false, 0, 0, ⟨0, 0, 0⟩, ⟨0, 0, 0⟩, 9, 0, [],
         true, 0, 0, []⟩).lives = 9 - 1 := by
  refine ⟨(c6_respawn_event _ (by norm_num)).1, (c6_respawn_event _ (by norm_num)).2.1⟩

section PhysicsALemmas

theorem va_inputStep_core (k : NumKernel) (keys : PlayerControls) (dt : ℚ)
    (s : VA.AState) :
    (VA.inputStep k keys dt s).lives = s.lives ∧
    (VA.inputStep k keys dt s).events = s.events := by
  simp only [VA.inputStep]
  split_ifs <;> exact ⟨rfl, rfl⟩

theorem va_frictionStep_core (k : NumKernel) (dt : ℚ) (s : VA.AState) :
    (VA.frictionStep k dt s).lives = s.lives ∧
    (VA.frictionStep k dt s).events = s.events := by
  simp only [VA.frictionStep]
  split_ifs <;> exact ⟨rfl, rfl⟩

theorem va_maxSpeedStep_core (k : NumKernel) (sprint : Bool) (s : VA.AState) :
    (VA.maxSpeedStep k sprint s).lives = s.lives ∧
    (VA.maxSpeedStep k sprint s).events = s.events := by
  simp only [VA.maxSpeedStep]
  split_ifs <;> exact ⟨rfl, rfl⟩

theorem va_jumpStep_core (jumpKey : Bool) (dt : ℚ) (s : VA.AState) :
    (VA.jumpStep jumpKey dt s).lives = s.lives ∧
    (VA.jumpStep jumpKey dt s).events = s.events := by
  simp only [VA.jumpStep]
  split_ifs <;> exact ⟨rfl, rfl⟩

theorem va_gravityStep_core (dt : ℚ) (s : VA.AState) :
    (VA.gravityStep dt s).lives = s.lives ∧
    (VA.gravityStep dt s).events = s.events :=
  ⟨rfl, rfl⟩

theorem va_platformStep_core (dt : ℚ) (s : VA.AState) :
    (VA.platformStep dt s).lives = s.lives ∧
    (VA.platformStep dt s).events = s.events := by
  simp only [VA.platformStep]
  split_ifs <;> exact ⟨rfl, rfl⟩

theorem va_resolveCollisions_core (k : NumKernel) (colliders : List Box3)
    (tramBox : Box3) (t : ℚ) (s : VA.AState) :
    (VA.resolveCollisions k colliders tramBox t s).lives = s.lives ∧
    (VA.resolveCollisions k colliders tramBox t s).events = s.events :=
  ⟨rfl, rfl⟩

theorem va_resolveCollisions_y (k : NumKernel) (colliders : List Box3)
    (tramBox : Box3) (t : ℚ) (s : VA.AState) :
    0 ≤ (VA.resolveCollisions k colliders tramBox t s).pPos.y ∧
    ((VA.resolveCollisions k colliders tramBox t s).pPos.y = 0 →
      0 ≤ (VA.resolveCollisions k colliders tramBox t s).pVel.y) := by
  unfold VA.resolveCollisions
  dsimp only
  split_ifs with h
  · exact ⟨le_refl 0, fun _ => le_max_left 0 _⟩
  · constructor
    · linarith [lt_of_not_ge h]
    · intro h0
      exact absurd h0 (by linarith [lt_of_not_ge h])

theorem va_substep_core (k : NumKernel) (colliders : List Box3) (tramBox : Box3)
    (t subDt : ℚ) (s : VA.AState) :
    (VA.substep k colliders tramBox t subDt s).lives = s.lives ∧
    (VA.substep k colliders tramBox t subDt s).events = s.events :=
  ⟨rfl, rfl⟩

theorem va_substep_y (k : NumKernel) (colliders : List Box3) (tramBox : Box3)
    (t subDt : ℚ) (s : VA.AState) :
    0 ≤ (VA.substep k colliders tramBox t subDt s).pPos.y := by
  unfold VA.substep
  exact (va_resolveCollisions_y k colliders tramBox t _).1

theorem va_integrate_core (k : NumKernel) (colliders : List Box3) (tramBox : Box3)
    (t dt : ℚ) (s : VA.AState) :
    (VA.integrate k colliders tramBox t dt s).lives = s.lives ∧
    (VA.integrate k colliders tramBox t dt s).events = s.events :=
  ⟨rfl, rfl⟩

theorem va_integrate_y (k : NumKernel) (colliders : List Box3) (tramBox : Box3)
    (t dt : ℚ) (s : VA.AState) :
    0 ≤ (VA.integrate k colliders tramBox t dt s).pPos.y := by
  unfold VA.integrate
  exact va_substep_y k colliders tramBox t _ _

end PhysicsALemmas

/-- C7: the variant-A collision resolver closes with an unconditional ground
plane clamp, so after any resolveCollisions call the player height is at
least 0 (and vertical velocity is non-negative whenever the height is 0);
consequently, after any whole fixed physics step the height is at least 0,
the fall-below-minus-10 respawn branch never fires, the lives counter is
unchanged and no onLivesUpdate event is emitted - for every input state,
every collider list, every tram box and every numeric kernel. -/
theorem c7_respawn_unreachable :
    ∀ (k : NumKernel) (keys : PlayerControls) (colliders : List Box3)
      (tramBox : Box3) (t dt : ℚ) (s : VA.AState),
      0 ≤ (VA.resolveCollisions k colliders tramBox t s).pPos.y ∧
      ((VA.resolveCollisions k colliders tramBox t s).pPos.y = 0 →
        0 ≤ (VA.resolveCollisions k colliders tramBox t s).pVel.y) ∧
      0 ≤ (VA.updatePhysicsFixed k keys colliders tramBox t dt s).pPos.y ∧
      (VA.updatePhysicsFixed k keys colliders tramBox t dt s).lives = s.lives ∧
      (VA.updatePhysicsFixed k keys colliders tramBox t dt s).events = s.events := by
  intro k keys colliders tramBox t dt s
  refine ⟨(va_resolveCollisions_y k colliders tramBox t s).1,
    (va_resolveCollisions_y k colliders tramBox t s).2, ?_, ?_, ?_⟩
  all_goals {
    unfold VA.updatePhysicsFixed
    generalize hmid :
      VA.platformStep dt (VA.gravityStep dt (VA.jumpStep keys.jump dt
        (VA.maxSpeedStep k keys.sprint (VA.frictionStep k dt
          (VA.inputStep k keys dt s))))) = mid
    have hy : 0 ≤ (VA.integrate k colliders tramBox t dt mid).pPos.y :=
      va_integrate_y k colliders tramBox t dt mid
    have hfc : VA.floorCheck (VA.integrate k colliders tramBox t dt mid) =
        VA.integrate k colliders tramBox t dt mid := by
      unfold VA.floorCheck
      rw [if_neg (by linarith)]
    rw [hfc]
    first
    | exact hy
    | (rw [(va_integrate_core k colliders tramBox t dt mid).1, ← hmid,
          (va_platformStep_core dt _).1, (va_gravityStep_core dt _).1,
          (va_jumpStep_core keys.jump dt _).1, (va_maxSpeedStep_core k keys.sprint _).1,
          (va_frictionStep_core k dt _).1, (va_inputStep_core k keys dt s).1])
    | (rw [(va_integrate_core k colliders tramBox t dt mid).2, ← hmid,
          (va_platformStep_core dt _).2, (va_gravityStep_core dt _).2,
          (va_jumpStep_core keys.jump dt _).2, (va_maxSpeedStep_core k keys.sprint _).2,
          (va_frictionStep_core k dt _).2, (va_inputStep_core k keys dt s).2])
  }

/-- C7 witness: the theorem evaluated with the degenerate kernel at a state
already below the ground plane, an empty collider list and a faraway tram
box: the resolver clamps the height to 0 with upward-corrected velocity and
the full step preserves lives and events. -/
theorem c7_witness :
    0 ≤ (VA.resolveCollisions kZero [] ⟨⟨100, 0, 100⟩, ⟨110, 10, 110⟩⟩ 0
        ⟨⟨0, -5, 0⟩, ⟨0, -3, 0⟩, false, 0, 0, ⟨0, 0, 0⟩, ⟨0, 0, 0⟩, 9, 0, [],
         true, 0, 0, []⟩).pPos.y ∧
    (VA.updatePhysicsFixed kZero ⟨false, false, false, false, false, false⟩ []
        ⟨⟨100, 0, 100⟩, ⟨110, 10, 110⟩⟩ 0 (1/60)
        ⟨⟨0, -5, 0⟩, ⟨0, -3, 0⟩, false, 0, 0, ⟨0, 0, 0⟩, ⟨0, 0, 0⟩, 9, 0, [],
         true, 0, 0, []⟩).lives =
      (⟨⟨0, -5, 0⟩, ⟨0, -3, 0⟩, false, 0, 0, ⟨0, 0, 0⟩, ⟨0, 0, 0⟩, 9, 0, [],
         true, 0, 0, []⟩ : VA.AState).lives := by
  refine ⟨(c7_respawn_unreachable kZero ⟨false, false, false, false, false, false⟩ []
    ⟨⟨100, 0, 100⟩, ⟨110, 10, 110⟩⟩ 0 (1/60) _).1, ?_⟩
  exact (c7_respawn_unreachable kZero ⟨false, false, false, false, false, false⟩ []
    ⟨⟨100, 0, 100⟩, ⟨110, 10, 110⟩⟩ 0 (1/60) _).2.2.2.1

/-- C8: the step-up branch of the variant-A per-box resolver.  Whenever the
foot sphere overlaps a box (non-degenerately), the contact normal computed
from the sphere center is near-horizontal (y component below 0.1), the box
top is at most STEP_HEIGHT = 1.2 above the player's feet and the vertical
velocity is non-positive, the resolver snaps the height to the box top,
zeroes the vertical velocity and classifies the contact as ground, leaving
horizontal position and horizontal velocity untouched instead of blocking
them. -/
theorem c8_step_up :
    ∀ (k : NumKernel) (center : Vec3) (box : Box3) (st : VA.Contact),
      ¬ |box.min.x - st.pos.x| > 30 →
      (center.sub (box.clampVec center)).lengthSq < (11/10) ^ 2 →
      (center.sub (box.clampVec center)).lengthSq > 1/100000 →
      (Vec3.scale (1 / k.sqrtFn (center.sub (box.clampVec center)).lengthSq)
        (center.sub (box.clampVec center))).y < 1/10 →
      box.max.y - st.pos.y ≤ 6/5 →
      st.vel.y ≤ 0 →
      VA.resolveBoxContact k center st box =
        { pos := ⟨st.pos.x, box.max.y, st.pos.z⟩,
          vel := ⟨st.vel.x, 0, st.vel.z⟩, ground := true } := by
  intro k center box st h1 h2 h3 h4 h5 h6
  unfold VA.resolveBoxContact
  rw [if_neg h1]
  dsimp only
  rw [if_pos ⟨h2, h3⟩, if_pos ⟨h4, h5, h6⟩]

/-- C8 witness: a concrete wall contact - feet at the origin against a box
whose top is 1.1 above them, overlap distance 0.5 with an exactly-horizontal
normal, moving forward and slightly down - resolves to a step-up that keeps
the horizontal velocity 3 and grounds the player at the box top. -/
theorem c8_witness :
    VA.resolveBoxContact
        ⟨fun _ => 1/2, fun _ => 0, fun _ => 0, fun _ _ => 0, fun _ => 0⟩
        ⟨0, 11/10, 0⟩
        ⟨⟨0, 0, 0⟩, ⟨3, -1, 0⟩, false⟩
        ⟨⟨1/2, 0, -2⟩, ⟨3, 11/10, 2⟩⟩ =
      { pos := ⟨0, 11/10, 0⟩, vel := ⟨3, 0, 0⟩, ground := true } :=
  c8_step_up ⟨fun _ => 1/2, fun _ => 0, fun _ => 0, fun _ _ => 0, fun _ => 0⟩
    ⟨0, 11/10, 0⟩ ⟨⟨1/2, 0, -2⟩, ⟨3, 11/10, 2⟩⟩ ⟨⟨0, 0, 0⟩, ⟨3, -1, 0⟩, false⟩
    (by rw [gt_iff_lt, not_lt, abs_le]; constructor <;> norm_num)
    (by norm_num [Box3.clampVec, Vec3.sub, Vec3.lengthSq, Vec3.dot, Vec3.scale,
      min_def, max_def])
    (by norm_num [Box3.clampVec, Vec3.sub, Vec3.lengthSq, Vec3.dot, Vec3.scale,
      min_def, max_def])
    (by norm_num [Box3.clampVec, Vec3.sub, Vec3.lengthSq, Vec3.dot, Vec3.scale,
      min_def, max_def])
    (by norm_num)
    (by norm_num)

/-- C9: in variant A the mouse handler applies no clamp at all: from the
initial pitch 0.3, two mouse events of vertical delta 1000 drive the pitch
to -3.7, which is beyond straight down (less than -pi/2), so the camera
pitch does not remain in a fixed closed range preventing a flip past
vertical. -/
theorem c9_counterexample :
    (VA.onMouseMove true true 0 1000
        (VA.onMouseMove true true 0 1000 (3/10, 0))).1 = -37/10 ∧
    ((-37/10 : ℚ) : ℝ) < -(Real.pi / 2) := by
  constructor
  · norm_num [VA.onMouseMove]
  · have hpi : Real.pi < 3.15 := Real.pi_lt_d2
    push_cast
    norm_num
    linarith

/-- C9 (amended): in variant B, yaw accumulates the scaled mouse delta with
no bound while the pitch is clamped into the fixed closed range
[CAMERA_MIN_PHI, CAMERA_MAX_PHI] after every update; in variant A (while
running with the pointer locked) both yaw and pitch accumulate their deltas
without any clamping. -/
theorem c9_amended :
    (∀ maxPhi : ℚ, 3/10 ≤ maxPhi → ∀ dx dy : ℚ, ∀ cam : ℚ × ℚ,
      3/10 ≤ (VB.onMouseMove maxPhi dx dy cam).2 ∧
      (VB.onMouseMove maxPhi dx dy cam).2 ≤ maxPhi ∧
      (VB.onMouseMove maxPhi dx dy cam).1 = cam.1 - dx * (1/500)) ∧
    (∀ dx dy : ℚ, ∀ cam : ℚ × ℚ,
      VA.onMouseMove true true dx dy cam =
        (cam.1 - dy * (1/500), cam.2 - dx * (1/500))) := by
  constructor
  · intro maxPhi h dx dy cam
    refine ⟨le_max_left _ _, ?_, rfl⟩
    exact max_le h (min_le_left _ _)
  · intro dx dy cam
    unfold VA.onMouseMove
    rw [if_pos ⟨rfl, rfl⟩]

/-- C9 witness: the amended theorem evaluated at a concrete clamp bound 3/2
and concrete mouse deltas for both variants. -/
theorem c9_witness :
    (3/10 ≤ (VB.onMouseMove (3/2) 5 (-700) (1, 2)).2 ∧
      (VB.onMouseMove (3/2) 5 (-700) (1, 2)).2 ≤ 3/2 ∧
      (VB.onMouseMove (3/2) 5 (-700) (1, 2)).1 = 1 - 5 * (1/500)) ∧
    VA.onMouseMove true true 5 (-700) (1, 2) =
      (1 - (-700) * (1/500), 2 - 5 * (1/500)) :=
  ⟨c9_amended.1 (3/2) (by norm_num) 5 (-700) (1, 2),
   c9_amended.2 5 (-700) (1, 2)⟩

/-- C10: in variant A, setRunning true performs a full game reset beyond
setting the running flag: score 0, lives 9, player re-placed at the spawn
point (0, 10, 0) with zero velocity and the ground flag cleared, every
collectible re-activated and re-shown, and both callbacks fired - so
resuming from pause discards all progress. -/
theorem c10_setRunning_resets :
    ∀ s : VA.AState,
      (VA.setRunning true s).running = true ∧
      (VA.setRunning true s).score = 0 ∧
      (VA.setRunning true s).lives = 9 ∧
      (VA.setRunning true s).pPos = ⟨0, 10, 0⟩ ∧
      (VA.setRunning true s).pVel = Vec3.zero ∧
      (VA.setRunning true s).pOnGround = false ∧
      (VA.setRunning true s).collectibles =
        s.collectibles.map (fun c => { c with active := true, visible := true }) ∧
      (VA.setRunning true s).events =
        s.events ++ [.scoreUpdate 0 s.collectibles.length, .livesUpdate 9] := by
  intro s
  exact ⟨rfl, rfl, rfl, rfl, rfl, rfl, rfl, rfl⟩
